import Mathlib

/-!
Verification of the Entity HTTP Client (`src/api.js`).

The client is a thin stateless wrapper over the platform `fetch` function:
every exported operation builds one request (URL, method, headers, body),
issues a single `fetch`, checks `response.ok`, throws a fixed error on a
non-ok status, and otherwise returns the parsed JSON response body.

Shallow embedding: the network is an explicit environment
`Fetch : Request → FetchOutcome`. Each JavaScript `async` function becomes a
Lean function from the environment and its arguments to the pair of
(the list of requests it issued, its outcome). An outcome is
`Except JsError Json`: `.ok v` models the promise resolving with value `v`,
`.error e` models the promise rejecting with the thrown JavaScript error `e`.
JavaScript template-literal interpolation of an argument into a URL is
modelled by string concatenation of the argument (already converted to a
string, as `${x}` does). The platform pieces the client calls are modelled
as follows: `response.ok` is true exactly when the status is 200–299;
`response.json()` yields the parsed body when the body text is valid JSON
and rejects with a SyntaxError otherwise, so a `Response` carries the parse
result of its body as `jsonBody : Option Json` (`none` = body is not valid
JSON); `JSON.stringify` is `Json.stringify`.
-/

namespace Api

/-- A JSON value, as produced by parsing a response body or passed as a
request payload. -/
inductive Json where
  | null : Json
  | bool : Bool → Json
  | num : Int → Json
  | str : String → Json
  | arr : List Json → Json
  | obj : List (String × Json) → Json
deriving Repr

/-- Escaping of a single character inside a JSON string literal, as
`JSON.stringify` does. -/
def escapeChar (c : Char) : String :=
  if c = '"' then "\\\""
  else if c = '\\' then "\\\\"
  else if c = '\n' then "\\n"
  else if c = '\r' then "\\r"
  else if c = '\t' then "\\t"
  else String.singleton c

/-- Escaping of the characters of a JSON string literal. -/
def escapeString (s : String) : String :=
  String.join (s.data.map escapeChar)

mutual

/-- `JSON.stringify`: serialize a JSON value to its compact textual form
(no added whitespace), as the client does for request bodies. -/
def Json.stringify : Json → String
  | .null => "null"
  | .bool true => "true"
  | .bool false => "false"
  | .num n => toString n
  | .str s => "\"" ++ escapeString s ++ "\""
  | .arr xs => "[" ++ Json.stringifyElems xs ++ "]"
  | .obj fs => "\x7b" ++ Json.stringifyFields fs ++ "\x7d"

/-- Comma-separated serialization of the elements of a JSON array. -/
def Json.stringifyElems : List Json → String
  | [] => ""
  | [x] => Json.stringify x
  | x :: y :: xs => Json.stringify x ++ "," ++ Json.stringifyElems (y :: xs)

/-- Comma-separated serialization of the key/value pairs of a JSON object. -/
def Json.stringifyFields : List (String × Json) → String
  | [] => ""
  | [(k, v)] => "\"" ++ escapeString k ++ "\":" ++ Json.stringify v
  | (k, v) :: f :: fs =>
    "\"" ++ escapeString k ++ "\":" ++ Json.stringify v ++ ","
      ++ Json.stringifyFields (f :: fs)

end

/-- An HTTP request as handed to `fetch`: the URL string, the method, the
headers, and the body text (absent for the GET calls). A bare
`fetch(url)` uses method GET, no headers and no body. -/
structure Request where
  url : String
  method : String
  headers : List (String × String)
  body : Option String
deriving Repr, DecidableEq

/-- A `fetch` request with only a URL: `fetch(url)` defaults to a GET with
no headers and no body. -/
def getRequest (url : String) : Request :=
  { url := url, method := "GET", headers := [], body := none }

/-- An HTTP response, as far as the client looks at it: the status code and
the parse result of the body text. `jsonBody = some v` means the body text
is valid JSON parsing to `v`; `jsonBody = none` means the body text is not
valid JSON, so `response.json()` rejects. -/
structure Response where
  status : Nat
  jsonBody : Option Json
deriving Repr

/-- `response.ok`: true exactly when the status is in the 200–299 range. -/
def Response.ok (r : Response) : Bool :=
  decide (200 ≤ r.status ∧ r.status ≤ 299)

/-- What awaiting a call to `fetch` can do: deliver a response, or throw a
network-level exception (connection refused, DNS failure, ...) carrying a
transport-chosen message. -/
inductive FetchOutcome where
  | success (response : Response)
  | networkError (msg : String)

/-- The network environment: what `fetch` does on each request. -/
def Fetch : Type := Request → FetchOutcome

/-- A thrown JavaScript error, as observed through the rejected promise:
`error msg` is a `new Error(msg)` thrown by the client on a non-ok status;
`typeError msg` is the network-level exception thrown by `fetch` itself;
`parseError` is the SyntaxError thrown by `response.json()` on a body that
is not valid JSON (its engine-supplied message is not modelled). -/
inductive JsError where
  | error (msg : String)
  | typeError (msg : String)
  | parseError
deriving Repr, DecidableEq

/-- The common tail of every operation, exactly as each function repeats
it: network failure propagates unwrapped; `if (!response.ok) throw new
Error(errMsg)`; otherwise `return response.json()`. -/
def handleResponse (outcome : FetchOutcome) (errMsg : String) :
    Except JsError Json :=
  match outcome with
  | .networkError m => .error (.typeError m)
  | .success response =>
    if !response.ok then .error (.error errMsg)
    else
      match response.jsonBody with
      | some v => .ok v
      | none => .error .parseError

/-- `const BASE_URL = 'http://localhost:8000'` -/
def BASE_URL : String := "http://localhost:8000"

/-- `fetchEntityColumns(entity)`: GET `` `${BASE_URL}/${entity}/columns` ``,
throw `Failed to fetch ${entity} columns` on a non-ok status, else return
the parsed body. The result pairs the list of requests issued with the
outcome. -/
def fetchEntityColumns (env : Fetch) (entity : String) :
    List Request × Except JsError Json :=
  let req := getRequest (BASE_URL ++ "/" ++ entity ++ "/columns")
  ([req], handleResponse (env req) ("Failed to fetch " ++ entity ++ " columns"))

/-- `searchRecords(entity, column, value)`: GET
`` `${BASE_URL}/search?entity=${entity}&column=${column}&value=${value}` ``. -/
def searchRecords (env : Fetch) (entity column value : String) :
    List Request × Except JsError Json :=
  let req := getRequest
    (BASE_URL ++ "/search?entity=" ++ entity ++ "&column=" ++ column
      ++ "&value=" ++ value)
  ([req], handleResponse (env req) "Failed to search records")

/-- `sortRecords(entity, column, order)`: GET
`` `${BASE_URL}/sort?entity=${entity}&column=${column}&order=${order}` ``. -/
def sortRecords (env : Fetch) (entity column order : String) :
    List Request × Except JsError Json :=
  let req := getRequest
    (BASE_URL ++ "/sort?entity=" ++ entity ++ "&column=" ++ column
      ++ "&order=" ++ order)
  ([req], handleResponse (env req) "Failed to sort records")

/-- `selectAllRecords(entity)`: GET `` `${BASE_URL}/all?entity=${entity}` ``. -/
def selectAllRecords (env : Fetch) (entity : String) :
    List Request × Except JsError Json :=
  let req := getRequest (BASE_URL ++ "/all?entity=" ++ entity)
  ([req], handleResponse (env req) "Failed to fetch all records")

/-- The request record shared by the write operations: JSON-serialized
payload as body, `Content-Type: application/json` header. -/
def writeRequest (url method : String) (payload : Json) : Request :=
  { url := url, method := method,
    headers := [("Content-Type", "application/json")],
    body := some payload.stringify }

/-- `insertStudent(student)`: POST `` `${BASE_URL}/students` `` with JSON
body `JSON.stringify(student)`. -/
def insertStudent (env : Fetch) (student : Json) :
    List Request × Except JsError Json :=
  let req := writeRequest (BASE_URL ++ "/students") "POST" student
  ([req], handleResponse (env req) "Failed to insert student")

/-- `deleteStudents(studentIds)`: DELETE `` `${BASE_URL}/students` `` with
JSON body `JSON.stringify(studentIds)`. -/
def deleteStudents (env : Fetch) (studentIds : Json) :
    List Request × Except JsError Json :=
  let req := writeRequest (BASE_URL ++ "/students") "DELETE" studentIds
  ([req], handleResponse (env req) "Failed to delete students")

/-- `updateStudent(studentId, student)`: PUT
`` `${BASE_URL}/students/${studentId}` `` with JSON body
`JSON.stringify(student)`. The identifier is taken already converted to a
string, as template-literal interpolation does. -/
def updateStudent (env : Fetch) (studentId : String) (student : Json) :
    List Request × Except JsError Json :=
  let req := writeRequest (BASE_URL ++ "/students/" ++ studentId) "PUT" student
  ([req], handleResponse (env req) "Failed to update student")

/-- `insertMentor(mentor)`: POST `` `${BASE_URL}/mentors` ``. -/
def insertMentor (env : Fetch) (mentor : Json) :
    List Request × Except JsError Json :=
  let req := writeRequest (BASE_URL ++ "/mentors") "POST" mentor
  ([req], handleResponse (env req) "Failed to insert mentor")

/-- `updateMentor(mentorId, mentor)`: PUT
`` `${BASE_URL}/mentors/${mentorId}` ``. -/
def updateMentor (env : Fetch) (mentorId : String) (mentor : Json) :
    List Request × Except JsError Json :=
  let req := writeRequest (BASE_URL ++ "/mentors/" ++ mentorId) "PUT" mentor
  ([req], handleResponse (env req) "Failed to update mentor")

/-- `deleteMentors(mentorIds)`: DELETE `` `${BASE_URL}/mentors` ``. -/
def deleteMentors (env : Fetch) (mentorIds : Json) :
    List Request × Except JsError Json :=
  let req := writeRequest (BASE_URL ++ "/mentors") "DELETE" mentorIds
  ([req], handleResponse (env req) "Failed to delete mentors")

/-- `insertProject(project)`: POST `` `${BASE_URL}/projects` ``. -/
def insertProject (env : Fetch) (project : Json) :
    List Request × Except JsError Json :=
  let req := writeRequest (BASE_URL ++ "/projects") "POST" project
  ([req], handleResponse (env req) "Failed to insert project")

/-- `updateProject(projectId, project)`: PUT
`` `${BASE_URL}/projects/${projectId}` ``. -/
def updateProject (env : Fetch) (projectId : String) (project : Json) :
    List Request × Except JsError Json :=
  let req := writeRequest (BASE_URL ++ "/projects/" ++ projectId) "PUT" project
  ([req], handleResponse (env req) "Failed to update project")

/-- `deleteProjects(projectIds)`: DELETE `` `${BASE_URL}/projects` ``. -/
def deleteProjects (env : Fetch) (projectIds : Json) :
    List Request × Except JsError Json :=
  let req := writeRequest (BASE_URL ++ "/projects") "DELETE" projectIds
  ([req], handleResponse (env req) "Failed to delete projects")

/-- One invocation of one of the thirteen exported operations, with its
arguments. -/
inductive Call where
  | fetchEntityColumns (entity : String)
  | searchRecords (entity column value : String)
  | sortRecords (entity column order : String)
  | selectAllRecords (entity : String)
  | insertStudent (student : Json)
  | deleteStudents (studentIds : Json)
  | updateStudent (studentId : String) (student : Json)
  | insertMentor (mentor : Json)
  | updateMentor (mentorId : String) (mentor : Json)
  | deleteMentors (mentorIds : Json)
  | insertProject (project : Json)
  | updateProject (projectId : String) (project : Json)
  | deleteProjects (projectIds : Json)

/-- Run a call against a network environment. -/
def Call.exec (env : Fetch) : Call → List Request × Except JsError Json
  | .fetchEntityColumns entity => Api.fetchEntityColumns env entity
  | .searchRecords entity column value => Api.searchRecords env entity column value
  | .sortRecords entity column order => Api.sortRecords env entity column order
  | .selectAllRecords entity => Api.selectAllRecords env entity
  | .insertStudent student => Api.insertStudent env student
  | .deleteStudents studentIds => Api.deleteStudents env studentIds
  | .updateStudent studentId student => Api.updateStudent env studentId student
  | .insertMentor mentor => Api.insertMentor env mentor
  | .updateMentor mentorId mentor => Api.updateMentor env mentorId mentor
  | .deleteMentors mentorIds => Api.deleteMentors env mentorIds
  | .insertProject project => Api.insertProject env project
  | .updateProject projectId project => Api.updateProject env projectId project
  | .deleteProjects projectIds => Api.deleteProjects env projectIds

/-- The single request a call builds (each operation builds exactly one,
from its arguments alone). -/
def Call.request : Call → Request
  | .fetchEntityColumns entity =>
    getRequest (BASE_URL ++ "/" ++ entity ++ "/columns")
  | .searchRecords entity column value =>
    getRequest (BASE_URL ++ "/search?entity=" ++ entity ++ "&column="
      ++ column ++ "&value=" ++ value)
  | .sortRecords entity column order =>
    getRequest (BASE_URL ++ "/sort?entity=" ++ entity ++ "&column="
      ++ column ++ "&order=" ++ order)
  | .selectAllRecords entity => getRequest (BASE_URL ++ "/all?entity=" ++ entity)
  | .insertStudent student => writeRequest (BASE_URL ++ "/students") "POST" student
  | .deleteStudents studentIds =>
    writeRequest (BASE_URL ++ "/students") "DELETE" studentIds
  | .updateStudent studentId student =>
    writeRequest (BASE_URL ++ "/students/" ++ studentId) "PUT" student
  | .insertMentor mentor => writeRequest (BASE_URL ++ "/mentors") "POST" mentor
  | .updateMentor mentorId mentor =>
    writeRequest (BASE_URL ++ "/mentors/" ++ mentorId) "PUT" mentor
  | .deleteMentors mentorIds =>
    writeRequest (BASE_URL ++ "/mentors") "DELETE" mentorIds
  | .insertProject project => writeRequest (BASE_URL ++ "/projects") "POST" project
  | .updateProject projectId project =>
    writeRequest (BASE_URL ++ "/projects/" ++ projectId) "PUT" project
  | .deleteProjects projectIds =>
    writeRequest (BASE_URL ++ "/projects") "DELETE" projectIds

/-- The fixed message of the error a call throws on a non-ok status. -/
def Call.errMsg : Call → String
  | .fetchEntityColumns entity => "Failed to fetch " ++ entity ++ " columns"
  | .searchRecords _ _ _ => "Failed to search records"
  | .sortRecords _ _ _ => "Failed to sort records"
  | .selectAllRecords _ => "Failed to fetch all records"
  | .insertStudent _ => "Failed to insert student"
  | .deleteStudents _ => "Failed to delete students"
  | .updateStudent _ _ => "Failed to update student"
  | .insertMentor _ => "Failed to insert mentor"
  | .updateMentor _ _ => "Failed to update mentor"
  | .deleteMentors _ => "Failed to delete mentors"
  | .insertProject _ => "Failed to insert project"
  | .updateProject _ _ => "Failed to update project"
  | .deleteProjects _ => "Failed to delete projects"

/-- Whether the call is one of the nine entity write operations
(insert/update/delete on students, mentors, projects). -/
def Call.isWrite : Call → Bool
  | .insertStudent _ | .deleteStudents _ | .updateStudent _ _
  | .insertMentor _ | .updateMentor _ _ | .deleteMentors _
  | .insertProject _ | .updateProject _ _ | .deleteProjects _ => true
  | _ => false

/-- Every operation is its one built request fed to the environment and the
shared response handling with its fixed message. -/
theorem Call.exec_eq (env : Fetch) (c : Call) :
    c.exec env = ([c.request], handleResponse (env c.request) c.errMsg) := by
  cases c <;> rfl

/-- An environment whose backend answers every request with the given status
and parsed body. -/
def respEnv (status : Nat) (jsonBody : Option Json) : Fetch :=
  fun _ => .success { status := status, jsonBody := jsonBody }

/-- An environment whose transport fails every request with the given
network-error message. -/
def downEnv (msg : String) : Fetch :=
  fun _ => .networkError msg

/-- C1: for every exposed operation and every input, a response whose HTTP
status is outside 200–299 makes the operation reject with the thrown
operation-specific error, never resolve with a value; the response body is
not inspected — the outcome is the same whatever `jsonBody` the response
carries, since `resp` is arbitrary here beyond `resp.ok = false`. -/
theorem nonOk_status_rejects_without_reading_body
    (c : Call) (env : Fetch) (resp : Response)
    (h : env c.request = .success resp) (hok : resp.ok = false) :
    (c.exec env).2 = .error (.error c.errMsg) := by
  rw [Call.exec_eq, h]
  simp [handleResponse, hok]

/-- Witness for C1: `fetchEntityColumns("students")` against a backend
answering 404 rejects with the `Failed to fetch students columns` error. -/
theorem nonOk_status_rejects_without_reading_body_witness :
    ((Response.ok { status := 404, jsonBody := some .null } = false)
      ∧ ((Call.fetchEntityColumns "students").exec
          (respEnv 404 (some .null))).2
        = .error (.error ("Failed to fetch students columns"))) :=
  ⟨rfl, nonOk_status_rejects_without_reading_body
    (Call.fetchEntityColumns "students") (respEnv 404 (some .null))
    { status := 404, jsonBody := some .null } rfl rfl⟩

/-- C2: for every entity in students/mentors/projects and every operation in
insert/update/delete, a backend answer of HTTP 200 with JSON body `B` makes
the call resolve with exactly `B`, passed through unmodified. -/
theorem write_op_resolves_with_response_body
    (c : Call) (env : Fetch) (B : Json) (_hw : c.isWrite = true)
    (h : env c.request = .success { status := 200, jsonBody := some B }) :
    (c.exec env).2 = .ok B := by
  rw [Call.exec_eq, h]
  rfl

/-- Witness for C2: `insertStudent(null)` against a backend answering 200
with body `5` resolves with `5`. -/
theorem write_op_resolves_with_response_body_witness :
    ((Call.insertStudent .null).isWrite = true
      ∧ ((Call.insertStudent .null).exec (respEnv 200 (some (.num 5)))).2
        = .ok (.num 5)) :=
  ⟨rfl, write_op_resolves_with_response_body (Call.insertStudent .null)
    (respEnv 200 (some (.num 5))) (.num 5) rfl rfl⟩

/-- C3 counterexample: the error message is not a fixed string per
operation. `fetchEntityColumns` interpolates its `entity` argument into the
message, so the message varies with the call's arguments; and a
network-level exception from `fetch` propagates unwrapped with the
transport's message, so the message also varies with the kind of failure
(here `connection refused` instead of `Failed to search records`). -/
theorem error_message_varies_counterexample :
    (((Call.fetchEntityColumns "students").exec (respEnv 404 none)).2
        = .error (.error ("Failed to fetch students columns"))
      ∧ ((Call.fetchEntityColumns "mentors").exec (respEnv 404 none)).2
        = .error (.error ("Failed to fetch mentors columns"))
      ∧ (JsError.error ("Failed to fetch students columns")
          ≠ JsError.error ("Failed to fetch mentors columns"))
      ∧ ((Call.searchRecords "a" "b" "c").exec
          (downEnv ("connection refused"))).2
        = .error (.typeError ("connection refused"))
      ∧ (JsError.typeError ("connection refused")
          ≠ JsError.error ("Failed to search records"))) :=
  ⟨rfl, rfl, by decide, rfl, by decide⟩

/-- C3 amended: every failure still surfaces as a thrown error, but the
shape is: a non-ok HTTP status throws an `Error` whose message is the
operation's static template — constant for every operation except
`fetchEntityColumns`, whose message embeds its entity argument — and is
independent of the response status code and body; a network-level exception
thrown by `fetch` itself is not converted: it propagates to the caller
unwrapped, carrying the transport's message. -/
theorem failure_surface_shape (c : Call) (env : Fetch) :
    ((∀ resp, env c.request = .success resp → resp.ok = false →
        (c.exec env).2 = .error (.error c.errMsg))
      ∧ (∀ m, env c.request = .networkError m →
        (c.exec env).2 = .error (.typeError m))) := by
  constructor
  · intro resp h hok
    rw [Call.exec_eq, h]
    simp [handleResponse, hok]
  · intro m h
    rw [Call.exec_eq, h]
    rfl

/-- Witness for C3 (amended): `searchRecords` against a dead transport
rejects with the transport's own message, unwrapped. -/
theorem failure_surface_shape_witness :
    ((Call.searchRecords "a" "b" "c").exec (downEnv ("ECONNREFUSED"))).2
      = .error (.typeError ("ECONNREFUSED")) :=
  (failure_surface_shape (Call.searchRecords "a" "b" "c")
    (downEnv ("ECONNREFUSED"))).2 "ECONNREFUSED" rfl

/-- C4: for every operation and all argument strings, the URL of the one
request issued is the direct string concatenation of the base URL, the
literal path/query fragments, and the raw argument values — no
percent-encoding or escaping of any component (the equations hold for
arbitrary argument strings, reserved characters included). -/
theorem request_url_is_raw_concatenation (env : Fetch)
    (entity column value order studentId mentorId projectId : String)
    (student studentIds mentor mentorIds project projectIds : Json) :
    ((Api.fetchEntityColumns env entity).1.map Request.url
        = [BASE_URL ++ "/" ++ entity ++ "/columns"]
      ∧ (Api.searchRecords env entity column value).1.map Request.url
        = [BASE_URL ++ "/search?entity=" ++ entity ++ "&column=" ++ column
            ++ "&value=" ++ value]
      ∧ (Api.sortRecords env entity column order).1.map Request.url
        = [BASE_URL ++ "/sort?entity=" ++ entity ++ "&column=" ++ column
            ++ "&order=" ++ order]
      ∧ (Api.selectAllRecords env entity).1.map Request.url
        = [BASE_URL ++ "/all?entity=" ++ entity]
      ∧ (Api.insertStudent env student).1.map Request.url
        = [BASE_URL ++ "/students"]
      ∧ (Api.deleteStudents env studentIds).1.map Request.url
        = [BASE_URL ++ "/students"]
      ∧ (Api.updateStudent env studentId student).1.map Request.url
        = [BASE_URL ++ "/students/" ++ studentId]
      ∧ (Api.insertMentor env mentor).1.map Request.url
        = [BASE_URL ++ "/mentors"]
      ∧ (Api.updateMentor env mentorId mentor).1.map Request.url
        = [BASE_URL ++ "/mentors/" ++ mentorId]
      ∧ (Api.deleteMentors env mentorIds).1.map Request.url
        = [BASE_URL ++ "/mentors"]
      ∧ (Api.insertProject env project).1.map Request.url
        = [BASE_URL ++ "/projects"]
      ∧ (Api.updateProject env projectId project).1.map Request.url
        = [BASE_URL ++ "/projects/" ++ projectId]
      ∧ (Api.deleteProjects env projectIds).1.map Request.url
        = [BASE_URL ++ "/projects"]) :=
  ⟨rfl, rfl, rfl, rfl, rfl, rfl, rfl, rfl, rfl, rfl, rfl, rfl, rfl⟩

/-- C5: every invocation of every exposed operation issues exactly one
request — the singleton trace of the call's one built request — whatever
the environment does (success, any status, network failure). -/
theorem exactly_one_request_per_call (env : Fetch) (c : Call) :
    (c.exec env).1 = [c.request] := by
  rw [Call.exec_eq]

/-- C6: `fetchEntityColumns("students")` issues exactly one GET request to
`/students/columns` under the base URL, and on an ok response whose body
parses to `v` resolves with `v` verbatim. -/
theorem fetchEntityColumns_students_get_columns
    (env : Fetch) (resp : Response) (v : Json)
    (h : env (getRequest ("http://localhost:8000/students/columns"))
      = .success resp)
    (hok : resp.ok = true) (hb : resp.jsonBody = some v) :
    Api.fetchEntityColumns env "students"
      = ([getRequest ("http://localhost:8000/students/columns")], .ok v) := by
  show ([getRequest ("http://localhost:8000/students/columns")],
    handleResponse (env (getRequest ("http://localhost:8000/students/columns")))
      ("Failed to fetch students columns"))
    = ([getRequest ("http://localhost:8000/students/columns")], .ok v)
  rw [h]
  simp [handleResponse, hok, hb]

/-- Witness for C6: against a backend answering 200 with body `["name"]`,
`fetchEntityColumns("students")` issues the one GET and resolves with
`["name"]`. -/
theorem fetchEntityColumns_students_get_columns_witness :
    Api.fetchEntityColumns (respEnv 200 (some (.arr [.str "name"]))) "students"
      = ([getRequest ("http://localhost:8000/students/columns")],
         .ok (.arr [.str "name"])) :=
  fetchEntityColumns_students_get_columns
    (respEnv 200 (some (.arr [.str "name"])))
    { status := 200, jsonBody := some (.arr [.str "name"]) }
    (.arr [.str "name"]) rfl rfl rfl

/-- C7: `searchRecords("projects", "status", "active")` issues one GET
request whose query string is exactly
`entity=projects&column=status&value=active` — the three parameters in that
order. -/
theorem searchRecords_projects_query_order (env : Fetch) :
    (Api.searchRecords env "projects" "status" "active").1
      = [getRequest ("http://localhost:8000/search?"
          ++ "entity=projects&column=status&value=active")] :=
  rfl

/-- C8: `deleteStudents([1,2,3])` issues a DELETE request to `/students`
under the base URL whose body is the JSON serialization `[1,2,3]` and whose
headers carry `Content-Type: application/json`. -/
theorem deleteStudents_request_shape (env : Fetch) :
    (Api.deleteStudents env (.arr [.num 1, .num 2, .num 3])).1
      = [{ url := "http://localhost:8000/students", method := "DELETE",
           headers := [("Content-Type", "application/json")],
           body := some "[1,2,3]" }] :=
  rfl

/-- C9: `updateMentor(7, {name:"Alice"})` issues a PUT request to
`/mentors/7` under the base URL with JSON body `{"name":"Alice"}` and the
`Content-Type: application/json` header, and against a backend answering
200 with body `{"id":7,"name":"Alice"}` resolves with exactly that object
(`${mentorId}` stringifies the identifier, so the call carries `"7"`). -/
theorem updateMentor_seven_alice :
    Api.updateMentor
      (respEnv 200 (some (.obj [("id", .num 7), ("name", .str "Alice")])))
      "7" (.obj [("name", .str "Alice")])
      = ([{ url := "http://localhost:8000/mentors/7", method := "PUT",
            headers := [("Content-Type", "application/json")],
            body := some "\x7b\"name\":\"Alice\"\x7d" }],
         .ok (.obj [("id", .num 7), ("name", .str "Alice")])) :=
  rfl

/-- C10: an ok status alone is not enough to resolve — the call resolves
with a value only when the body additionally parses as JSON, and an ok
response whose body is not valid JSON makes the call reject with the parse
error rather than resolve. -/
theorem ok_status_requires_valid_json_body
    (c : Call) (env : Fetch) (resp : Response)
    (h : env c.request = .success resp) (hok : resp.ok = true) :
    ((resp.jsonBody = none → (c.exec env).2 = .error .parseError)
      ∧ ∀ v, (c.exec env).2 = .ok v → resp.jsonBody = some v) := by
  rw [Call.exec_eq, h]
  constructor
  · intro hb
    simp [handleResponse, hok, hb]
  · intro v hv
    simp only [handleResponse, hok, Bool.not_true, if_false] at hv
    cases hjb : resp.jsonBody with
    | none => rw [hjb] at hv; simp at hv
    | some w => rw [hjb] at hv; simp at hv; rw [hv]

/-- Witness for C10: `deleteProjects([4])` against a backend answering 200
with a body that is not valid JSON rejects with the parse error. -/
theorem ok_status_requires_valid_json_body_witness :
    ((Call.deleteProjects (.arr [.num 4])).exec (respEnv 200 none)).2
      = .error .parseError :=
  (ok_status_requires_valid_json_body (Call.deleteProjects (.arr [.num 4]))
    (respEnv 200 none) { status := 200, jsonBody := none } rfl rfl).1 rfl

end Api

